import Mathlib

/-!
Shallow embedding of `ads/opctl/backend/marketplace/local_marketplace.py`
(class `LocalMarketplaceOperatorBackend`): the local deployment orchestrator
that installs/upgrades a Helm chart and polls for pod readiness.

Python exceptions are modelled by the `PyError` type below; a function that
can raise returns `Except PyError _`.  Machine effects (subprocess results,
Kubernetes API answers, interactive confirmations) are passed in explicitly
as data, and the observable calls a run makes are recorded in event traces.
-/

/-- Python exception classes that the embedded code can raise.  `Exception`
is the generic base class (the source's bare `raise Exception`);
`AgreementRejected` is the distinguished error named by the design document,
which the source never defines or raises. -/
inductive PyError where
  | Exception
  | AgreementRejected
  | IndexError
  | TypeError
  | KeyError
  | EmptyDataError
  | RuntimeError
  | ApiException
  | FileNotFoundError
  deriving DecidableEq, Repr

/-! ## Readiness poller: `_wait_for_pod_ready` (lines 152-179)

The source loop fetches the pods matching
`app.kubernetes.io/instance={pod_name}`, takes `.items[0]`, returns `0` when
the first pod is ready, returns `-1` once `time.time() - start_time >=
timeout_seconds`, and otherwise sleeps `sleep_time` seconds and repeats.
`timeout_seconds = 10 * 60` and `sleep_time = 20` are fixed locals in the
source; the embedding takes them as parameters and instantiates the source's
values below.  Wall-clock time is modelled by the sleeps alone (each fetch
and readiness check is instantaneous), so after `n` sleeps the elapsed time
is `n * sleep_time`. -/

/-- Condition entry of a pod's `status.conditions` list. -/
structure PodCondition where
  type : String
  status : String
  deriving DecidableEq, Repr

/-- Pod as seen by the poller: only `status.conditions` is inspected. -/
structure Pod where
  conditions : List PodCondition
  deriving DecidableEq, Repr

/-- Embeds the inner `is_pod_ready` (lines 158-162): scan the conditions in
order; at the first one whose `type` is `"Ready"` return whether its status
is `"True"`; return `False` when no condition matches. -/
def is_pod_ready : List PodCondition → Bool
  | [] => false
  | c :: rest => if c.type = "Ready" then c.status = "True" else is_pod_ready rest

/-- Result of one `v1.list_namespaced_pod` call: either the item list, or a
raised exception (authentication/connectivity failure). -/
inductive FetchResult where
  | ok (items : List Pod)
  | err (e : PyError)
  deriving DecidableEq, Repr

/-- Terminal outcome of the polling loop, carrying the elapsed wall-clock
seconds at termination.  `ready` models `return 0`, `timedOut` models
`return -1`, and `probeFailed` models an exception propagating out of the
loop (either the fetch raising, or `IndexError` from `.items[0]` on an empty
item list).  `fuelOut` is an artifact of the embedding's fuel and is proved
unreachable. -/
inductive PollOutcome where
  | ready (elapsed : Nat)
  | timedOut (elapsed : Nat)
  | probeFailed (e : PyError) (elapsed : Nat)
  | fuelOut
  deriving DecidableEq, Repr

/-- Elapsed wall-clock seconds of a poll outcome (`0` for the unreachable
fuel artifact). -/
def PollOutcome.elapsed : PollOutcome → Nat
  | .ready t => t
  | .timedOut t => t
  | .probeFailed _ t => t
  | .fuelOut => 0

/-- The body of the source's `while True` loop (lines 167-178), one call per
tick.  `ticks n` is the fetch result of the `n`-th iteration; `n` sleeps
have happened before iteration `n`, so the elapsed time read by
`time.time() - start_time` is `n * sleep_time`.  The source takes
`.items[0]` before any emptiness check, so an empty item list raises
`IndexError` out of the loop. -/
def waitLoop (ticks : Nat → FetchResult) (timeout_seconds sleep_time : Nat) :
    Nat → Nat → PollOutcome
  | 0, _ => .fuelOut
  | fuel + 1, n =>
    match ticks n with
    | .err e => .probeFailed e (n * sleep_time)
    | .ok [] => .probeFailed .IndexError (n * sleep_time)
    | .ok (pod :: _) =>
      if is_pod_ready pod.conditions then .ready (n * sleep_time)
      else if n * sleep_time ≥ timeout_seconds then .timedOut (n * sleep_time)
      else waitLoop ticks timeout_seconds sleep_time fuel (n + 1)

/-- Embeds `_wait_for_pod_ready` with the timeout and interval exposed as
parameters.  The fuel `timeout_seconds / sleep_time + 2` covers every
iteration the loop can reach when `sleep_time > 0` (proved below). -/
def wait_for_pod_ready (ticks : Nat → FetchResult)
    (timeout_seconds sleep_time : Nat) : PollOutcome :=
  waitLoop ticks timeout_seconds sleep_time (timeout_seconds / sleep_time + 2) 0

/-- The source's fixed timeout: `timeout_seconds = 10 * 60` (line 165). -/
def default_timeout_seconds : Nat := 10 * 60

/-- The source's fixed polling interval: `sleep_time = 20` (line 166). -/
def default_sleep_time : Nat := 20

/-! ## Existence probe: `_run_helm_list` (106-115) and
`_check_if_chart_already_exist` (117-122)

`_run_helm_list` runs `helm list` and, when the exit code is `0`, parses the
captured stdout with `pd.read_csv(..., delimiter=r'\s*\t\s*')`; when the
exit code is non-zero it falls off the end and returns `None`.  The stdout
is modelled after that tab-splitting step, as the list of its lines, each a
list of cell strings; `pandas.read_csv` raises `EmptyDataError` on input
with no lines at all, and otherwise takes the first line as the header row
and the rest as data rows. -/

/-- Parsed tabular output: header row plus data rows. -/
structure Table where
  header : List String
  rows : List (List String)
  deriving DecidableEq, Repr

/-- Embeds `pd.read_csv` on the captured stdout (line 114): no lines at all
raises `EmptyDataError`; otherwise the first line is the header and the
remaining lines are the data rows. -/
def read_csv : List (List String) → Except PyError Table
  | [] => .error .EmptyDataError
  | header :: rows => .ok ⟨header, rows⟩

/-- Embeds column selection `df[col]` followed by elementwise comparison and
`.any()` (line 122): a missing column raises `KeyError`; otherwise the cell
of each data row at the column's header position (the empty string when a
row is too short) is compared for string equality with `name`. -/
def column_matches_any (t : Table) (col name : String) : Except PyError Bool :=
  match t.header.indexOf? col with
  | none => .error .KeyError
  | some i => .ok (t.rows.any fun r => r.getD i "" = name)

/-- Embeds `_run_helm_list` (lines 106-115): on exit code `0` parse the
stdout; on a non-zero exit code the Python function implicitly returns
`None`, modelled as `.ok none`. -/
def _run_helm_list (returncode : Int) (stdout : List (List String)) :
    Except PyError (Option Table) :=
  if returncode = 0 then (read_csv stdout).map some else .ok none

/-- Embeds `_check_if_chart_already_exist` (lines 117-122):
`(helm_list['NAME'] == name).any()`.  When `_run_helm_list` returned `None`
(non-zero exit code), subscripting `None` raises `TypeError`. -/
def _check_if_chart_already_exist (name : String) (returncode : Int)
    (stdout : List (List String)) : Except PyError Bool :=
  match _run_helm_list returncode stdout with
  | .error e => .error e
  | .ok none => .error .TypeError
  | .ok (some t) => column_matches_any t "NAME" name

/-! ## Command construction: `_run_helm_list` (106-110) and
`_run_helm_install` (124-135)

Both build `flags` by iterating the keyword arguments in order and extending
the list with `--{key}` followed by `{value}`; `_run_helm_list` prepends
`["helm", "list"]` and `_run_helm_install` prepends
`["helm", installation_type, name, chart]`.  Keyword-argument values are
modelled as the strings `f"{value}"` produces. -/

/-- Embeds the flag-building loop (lines 107-109 and 129-131):
`flags.extend([f"--{key}", f"{value}"])` for each pair in order. -/
def build_flags (kwargs : List (String × String)) : List String :=
  kwargs.foldl (fun flags kv => flags ++ ["--" ++ kv.1, kv.2]) []

/-- Embeds the `helm list` argument vector (line 110). -/
def helm_list_cmd (kwargs : List (String × String)) : List String :=
  ["helm", "list"] ++ build_flags kwargs

/-- Embeds the `helm install`/`helm upgrade` argument vector (line 133). -/
def helm_install_cmd (installation_type name chart : String)
    (kwargs : List (String × String)) : List String :=
  ["helm", installation_type, name, chart] ++ build_flags kwargs

/-! ## Agreement gate: `check_prerequisites` (194-262)

The method collects the accepted agreement ids, then walks the required
agreement summaries in order.  A summary whose id is already accepted is
skipped with no interaction.  Otherwise the agreement is fetched and shown
and the user is asked `click.confirm(...)`; a "no" answer executes a bare
`raise Exception`, a "yes" answer issues one
`marketplace.create_accepted_agreement` call and the walk continues.  The
interactive answers are modelled as a function from agreement id to `Bool`,
and the observable side effects as a trace of the confirmation prompts and
acceptance-recording calls made, in order, identified by agreement id. -/

/-- Agreement summary as used by the gate: only the id drives control flow
(the author appears in log strings). -/
structure AgreementSummary where
  id : String
  author : String
  deriving DecidableEq, Repr

/-- Accepted-agreement summary: only `agreement_id` is read (line 217). -/
structure AcceptedAgreementSummary where
  agreement_id : String
  deriving DecidableEq, Repr

/-- Observable side effects of one gate run: ids for which an interactive
confirmation was presented, and ids for which an acceptance-recording call
was issued, each in execution order. -/
structure GateTrace where
  confirms : List String
  records : List String
  deriving DecidableEq, Repr

/-- Embeds the `for agreement_summary in agreement_summaries` loop
(lines 219-262).  Returns the raised exception or unit, paired with the
trace of interactions and recording calls. -/
def gateLoop (acceptedIds : List String) (answer : String → Bool) :
    List AgreementSummary → Except PyError Unit × GateTrace
  | [] => (.ok (), ⟨[], []⟩)
  | a :: rest =>
    if acceptedIds.contains a.id then gateLoop acceptedIds answer rest
    else if answer a.id then
      let (res, t) := gateLoop acceptedIds answer rest
      (res, ⟨a.id :: t.confirms, a.id :: t.records⟩)
    else (.error .Exception, ⟨[a.id], []⟩)

/-- Embeds the accepted-id collection loop (lines 215-217). -/
def accepted_ids (accepted : List AcceptedAgreementSummary) : List String :=
  accepted.map fun s => s.agreement_id

/-- Embeds `check_prerequisites` (lines 194-262) after the marketplace
lookups: `accepted` is the listing's accepted-agreement list, `summaries`
the required-agreement list, `answer` the interactive confirmation. -/
def check_prerequisites (accepted : List AcceptedAgreementSummary)
    (answer : String → Bool) (summaries : List AgreementSummary) :
    Except PyError Unit × GateTrace :=
  gateLoop (accepted_ids accepted) answer summaries

/-- Ids of the summaries in a list that are not already accepted, in order:
the agreements for which the loop interacts. -/
def unaccepted_ids (acceptedIds : List String)
    (summaries : List AgreementSummary) : List String :=
  (summaries.filter fun a => !acceptedIds.contains a.id).map fun a => a.id

/-! ## Deployment run: `_run_with_python` (264-317) and `run` (319-349)

`_run_with_python` builds the runtime object, obtains the listing details
and — with the `self.check_prerequisites(listing_details)` call at line 288
commented out in the source — proceeds directly: when the details are not
`HelmMarketplaceListingDetails` it falls off the end and returns `None`;
otherwise it writes the override values to a temp file, runs
`_run_helm_install`, deletes the temp file, and returns
`_wait_for_pod_ready`'s result on exit code `0`, else `-1`.  There is no
`try`/`finally`: an exception raised inside `_run_helm_install` (for
example `TypeError` from the existence check when `helm list` failed, or
`FileNotFoundError` from `subprocess.run`) propagates before the
`_delete_temp_file` call is reached.

The observable steps are recorded as an event trace, and the outcome of each
external step is supplied by a `RunEnv`. -/

/-- Observable steps of one `_run_with_python` call.  `checkPrereq` is the
agreement-gate invocation; the embedding can emit it only where the source
calls `check_prerequisites`, and the source never does (line 288 is
commented out). -/
inductive Event where
  | checkPrereq
  | saveTempFile
  | helmInstall
  | deleteTempFile
  | waitForPod
  deriving DecidableEq, Repr

/-- Outcome of the `_run_helm_install` step: either an exception raised
before the install/upgrade subprocess was spawned (inside the existence
check or the spawn itself), or the subprocess ran and exited with `rc`. -/
inductive InstallStep where
  | raised (e : PyError)
  | ran (rc : Int)
  deriving DecidableEq, Repr

deriving instance DecidableEq for Except

/-- Environment of one deployment run: whether the listing details are
Helm-style, the outcome of the install step, and the result of the
readiness poller (`Except` because the poller can raise). -/
structure RunEnv where
  isHelmListing : Bool
  installStep : InstallStep
  podWait : Except PyError Int
  deriving DecidableEq, Repr

/-- Embeds `_run_with_python` (lines 264-317) as its result — the raised
exception, or the returned value (`none` models Python's `None` for a
non-Helm listing) — paired with the trace of observable steps in execution
order. -/
def run_with_python (env : RunEnv) : Except PyError (Option Int) × List Event :=
  if env.isHelmListing then
    match env.installStep with
    | .raised e => (.error e, [.saveTempFile])
    | .ran rc =>
      if rc = 0 then
        match env.podWait with
        | .error e =>
          (.error e, [.saveTempFile, .helmInstall, .deleteTempFile, .waitForPod])
        | .ok r =>
          (.ok (some r), [.saveTempFile, .helmInstall, .deleteTempFile, .waitForPod])
      else (.ok (some (-1)), [.saveTempFile, .helmInstall, .deleteTempFile])
  else (.ok none, [])

/-- Embeds `run` (lines 319-349) after the runtime dispatch: an unsupported
runtime type raises `RuntimeError` before the runtime function is called;
otherwise the runtime function's exceptions propagate, and a returned
`exit_code` different from `0` — including Python's `None`, since
`None != 0` is true — raises `RuntimeError`.  Returns `.ok ()` exactly on a
normal return. -/
def runMethod (runtimeSupported : Bool)
    (runtimeResult : Except PyError (Option Int)) : Except PyError Unit :=
  if runtimeSupported then
    match runtimeResult with
    | .error e => .error e
    | .ok exitCode => if exitCode = some 0 then .ok () else .error .RuntimeError
  else .error .RuntimeError

/-! ## Theorems -/

/-- With enough fuel the embedded loop never hits the fuel artifact: once
`timeout_seconds ≤ (n + fuel) * sleep_time`, iteration `n + fuel` at the
latest takes the timeout branch. -/
lemma waitLoop_ne_fuelOut (ticks : Nat → FetchResult) (t s : Nat) :
    ∀ fuel n, t ≤ (n + fuel) * s →
      waitLoop ticks t s (fuel + 1) n ≠ .fuelOut := by
  intro fuel
  induction fuel with
  | zero =>
    intro n hn
    simp only [waitLoop]
    cases ticks n with
    | err e => simp
    | ok items =>
      cases items with
      | nil => simp
      | cons pod rest =>
        simp only []
        by_cases hr : is_pod_ready pod.conditions
        · simp [hr]
        · have hts : n * s ≥ t := by simpa using hn
          simp [hr, hts]
  | succ fuel ih =>
    intro n hn
    simp only [waitLoop]
    cases ticks n with
    | err e => simp
    | ok items =>
      cases items with
      | nil => simp
      | cons pod rest =>
        simp only []
        by_cases hr : is_pod_ready pod.conditions
        · simp [hr]
        · by_cases hts : n * s ≥ t
          · simp [hr, hts]
          · have : t ≤ (n + 1 + fuel) * s := by
              have : n + 1 + fuel = n + (fuel + 1) := by omega
              rw [this]; exact hn
            simpa [hr, hts] using ih (n + 1) this

/-- Elapsed-time bound for the embedded loop: starting an iteration with
`n * sleep_time ≤ timeout_seconds + sleep_time`, every terminal outcome
reports elapsed time at most `timeout_seconds + sleep_time`, because the
loop only re-enters while `n * sleep_time < timeout_seconds`. -/
lemma waitLoop_elapsed_le (ticks : Nat → FetchResult) (t s : Nat) :
    ∀ fuel n, n * s ≤ t + s →
      (waitLoop ticks t s fuel n).elapsed ≤ t + s := by
  intro fuel
  induction fuel with
  | zero => intro n _; simp [waitLoop, PollOutcome.elapsed]
  | succ fuel ih =>
    intro n hn
    simp only [waitLoop]
    cases ticks n with
    | err e => simpa [PollOutcome.elapsed] using hn
    | ok items =>
      cases items with
      | nil => simpa [PollOutcome.elapsed] using hn
      | cons pod rest =>
        simp only []
        by_cases hr : is_pod_ready pod.conditions
        · simpa [hr, PollOutcome.elapsed] using hn
        · by_cases hts : n * s ≥ t
          · simpa [hr, hts, PollOutcome.elapsed] using hn
          · have : (n + 1) * s ≤ t + s := by
              have : n * s < t := by omega
              calc (n + 1) * s = n * s + s := by ring
                _ ≤ t + s := by omega
            simpa [hr, hts] using ih (n + 1) this

/-- C6: for all timeout/interval pairs with timeout ≥ interval > 0 (in
particular the source's defaults 600s/20s), `_wait_for_pod_ready` terminates
— reaching a ready return, a timed-out return, or a propagated probe
exception — with elapsed wall-clock time at most `timeout + interval`. -/
theorem awaitReady_terminates_within_bound
    (ticks : Nat → FetchResult) (timeout interval : Nat)
    (hpos : 0 < interval) (_hti : interval ≤ timeout) :
    ((∃ el, wait_for_pod_ready ticks timeout interval = .ready el) ∨
     (∃ el, wait_for_pod_ready ticks timeout interval = .timedOut el) ∨
     (∃ e el, wait_for_pod_ready ticks timeout interval = .probeFailed e el)) ∧
    (wait_for_pod_ready ticks timeout interval).elapsed ≤ timeout + interval := by
  have hne : wait_for_pod_ready ticks timeout interval ≠ .fuelOut := by
    have hdm := Nat.div_add_mod timeout interval
    have hlt := Nat.mod_lt timeout hpos
    have h : timeout ≤ (0 + (timeout / interval + 1)) * interval := by
      calc timeout = interval * (timeout / interval) + timeout % interval :=
            hdm.symm
        _ ≤ interval * (timeout / interval) + interval := by omega
        _ = (0 + (timeout / interval + 1)) * interval := by ring
    exact waitLoop_ne_fuelOut ticks timeout interval (timeout / interval + 1) 0 h
  refine ⟨?_, ?_⟩
  · cases h : wait_for_pod_ready ticks timeout interval with
    | ready el => exact Or.inl ⟨el, rfl⟩
    | timedOut el => exact Or.inr (Or.inl ⟨el, rfl⟩)
    | probeFailed e el => exact Or.inr (Or.inr ⟨e, el, rfl⟩)
    | fuelOut => exact absurd h hne
  · exact waitLoop_elapsed_le ticks timeout interval _ 0 (by simp)

/-- Fetch oracle for the C6 witness: every tick sees one pod that is not yet
ready, so polling runs all the way to the timeout. -/
def neverReadyTicks : Nat → FetchResult :=
  fun _ => .ok [⟨[⟨"PodScheduled", "True"⟩]⟩]

/-- Witness for C6 at the source's default timeout and interval. -/
theorem awaitReady_terminates_within_bound_witness :
    0 < 20 ∧ 20 ≤ 600 ∧
    (((∃ el, wait_for_pod_ready neverReadyTicks 600 20 = .ready el) ∨
      (∃ el, wait_for_pod_ready neverReadyTicks 600 20 = .timedOut el) ∨
      (∃ e el, wait_for_pod_ready neverReadyTicks 600 20 = .probeFailed e el)) ∧
     (wait_for_pod_ready neverReadyTicks 600 20).elapsed ≤ 600 + 20) :=
  ⟨by decide, by decide,
    awaitReady_terminates_within_bound neverReadyTicks 600 20 (by decide)
      (by decide)⟩

/-- Fetch oracle for C3: on the first tick the selector matches no pods at
all; from the second tick on a ready pod exists. -/
def emptyThenReadyTicks : Nat → FetchResult :=
  fun n => if n = 0 then .ok [] else .ok [⟨[⟨"Ready", "True"⟩]⟩]

/-- C3 (code bug evidence): on a polling tick whose matching set is empty
the source indexes `.items[0]` and raises `IndexError`, terminating the
whole poll at elapsed time 0 — it does not treat the empty set as "not yet
ready" and keep polling, even though the very next tick would have found a
ready pod. -/
theorem poller_raises_on_empty_matching_set :
    wait_for_pod_ready emptyThenReadyTicks 600 20 =
      .probeFailed .IndexError 0 := by
  decide

/-- C2 (counterexample): on completely empty listing output the probe does
not return `false` — `pd.read_csv` raises `EmptyDataError`, so the claim's
"empty tabular output yields `false`, not an error" fails at stdout with no
lines at all. -/
theorem exists_probe_empty_output_errors :
    _check_if_chart_already_exist "demo" 0 [] = .error .EmptyDataError ∧
    decide (_check_if_chart_already_exist "demo" 0 [] = .ok false) = false := by
  decide

/-- C2 (amended): when the listing output parses — a header row containing
the `NAME` column — the probe returns `false` for a table with no data rows
and `true` exactly when some data row's `NAME` cell equals the queried name
by exact, case-sensitive string equality; output with no lines at all
instead raises `EmptyDataError`. -/
theorem exists_probe_exact_match (name : String) (header : List String)
    (rows : List (List String)) (i : Nat)
    (hidx : header.indexOf? "NAME" = some i) :
    _check_if_chart_already_exist name 0 [header] = .ok false ∧
    (_check_if_chart_already_exist name 0 (header :: rows) = .ok true ↔
      ∃ r ∈ rows, r.getD i "" = name) ∧
    _check_if_chart_already_exist name 0 [] = .error .EmptyDataError := by
  refine ⟨?_, ?_,
    by simp [_check_if_chart_already_exist, _run_helm_list, read_csv, Except.map]⟩
  · simp [_check_if_chart_already_exist, _run_helm_list, read_csv,
      column_matches_any, hidx, Except.map]
  · simp [_check_if_chart_already_exist, _run_helm_list, read_csv,
      column_matches_any, hidx, Except.map, List.any_eq_true]

/-- Header row used by the C2 witness. -/
def helmListHeader : List String := ["NAME", "NAMESPACE", "REVISION"]

/-- Witness for the amended C2 at a concrete listing table. -/
theorem exists_probe_exact_match_witness :
    helmListHeader.indexOf? "NAME" = some 0 ∧
    (_check_if_chart_already_exist "demo" 0 [helmListHeader] = .ok false ∧
     (_check_if_chart_already_exist "demo" 0
        (helmListHeader :: [["demo", "ns1", "1"]]) = .ok true ↔
       ∃ r ∈ [["demo", "ns1", "1"]], r.getD 0 "" = "demo") ∧
     _check_if_chart_already_exist "demo" 0 [] = .error .EmptyDataError) :=
  ⟨by decide,
    exists_probe_exact_match "demo" helmListHeader [["demo", "ns1", "1"]] 0
      (by decide)⟩

/-- Folding the flag-extension step over `l` starting from `acc` appends the
flags of `l` to `acc`: the loop only ever extends the vector on the right. -/
lemma build_flags_foldl (l : List (String × String)) (acc : List String) :
    l.foldl (fun flags kv => flags ++ ["--" ++ kv.1, kv.2]) acc =
      acc ++ l.foldl (fun flags kv => flags ++ ["--" ++ kv.1, kv.2]) [] := by
  induction l generalizing acc with
  | nil => simp
  | cons kv rest ih =>
    rw [List.foldl_cons, List.foldl_cons, ih, ih (([] : List String) ++ _)]
    simp

/-- One flag/value pair contributes `--key` directly followed by the value,
in front of the flags of the remaining pairs. -/
lemma build_flags_cons (kv : String × String) (rest : List (String × String)) :
    build_flags (kv :: rest) = ("--" ++ kv.1) :: kv.2 :: build_flags rest := by
  simp only [build_flags, List.foldl_cons]
  rw [build_flags_foldl]
  simp

/-- Each pair contributes exactly two entries to the flag vector. -/
lemma build_flags_length (kwargs : List (String × String)) :
    (build_flags kwargs).length = 2 * kwargs.length := by
  induction kwargs with
  | nil => simp [build_flags]
  | cons kv rest ih => simp [build_flags_cons, ih]; omega

/-- The `i`-th pair's flag and value sit at positions `2i` and `2i + 1` of
the flag vector: the loop preserves the given order and adjacency. -/
lemma build_flags_getElem (kwargs : List (String × String)) :
    ∀ i k v, kwargs[i]? = some (k, v) →
      (build_flags kwargs)[2 * i]? = some ("--" ++ k) ∧
      (build_flags kwargs)[2 * i + 1]? = some v := by
  induction kwargs with
  | nil => intro i k v h; simp at h
  | cons kv rest ih =>
    intro i k v h
    cases i with
    | zero =>
      simp only [List.getElem?_cons_zero, Option.some_inj] at h
      subst h
      simp [build_flags_cons]
    | succ i =>
      simp only [List.getElem?_cons_succ] at h
      have h2 : 2 * (i + 1) = 2 * i + 1 + 1 := by ring
      have h3 : 2 * (i + 1) + 1 = 2 * i + 1 + 1 + 1 := by ring
      constructor
      · rw [build_flags_cons, h2, List.getElem?_cons_succ,
          List.getElem?_cons_succ]
        exact (ih i k v h).1
      · rw [build_flags_cons, h3, List.getElem?_cons_succ,
          List.getElem?_cons_succ]
        exact (ih i k v h).2

/-- C9: both helm argument vectors are built deterministically and in
order: first the executable, verb and targets, then — for the `i`-th
flag/value pair of the ordered keyword arguments — the `--`-prefixed flag at
position `prefixLength + 2i` immediately followed by its value at
`prefixLength + 2i + 1`, with total length `prefixLength + 2·pairs`. -/
theorem helm_command_vector_order (installation_type name chart : String)
    (kwargs : List (String × String)) (i : Nat) (k v : String)
    (h : kwargs[i]? = some (k, v)) :
    helm_install_cmd installation_type name chart kwargs =
      "helm" :: installation_type :: name :: chart :: build_flags kwargs ∧
    (helm_install_cmd installation_type name chart kwargs).length =
      4 + 2 * kwargs.length ∧
    (helm_install_cmd installation_type name chart kwargs)[4 + 2 * i]? =
      some ("--" ++ k) ∧
    (helm_install_cmd installation_type name chart kwargs)[4 + 2 * i + 1]? =
      some v ∧
    helm_list_cmd kwargs = "helm" :: "list" :: build_flags kwargs ∧
    (helm_list_cmd kwargs).length = 2 + 2 * kwargs.length ∧
    (helm_list_cmd kwargs)[2 + 2 * i]? = some ("--" ++ k) ∧
    (helm_list_cmd kwargs)[2 + 2 * i + 1]? = some v := by
  have hflag := (build_flags_getElem kwargs i k v h).1
  have hval := (build_flags_getElem kwargs i k v h).2
  have e4 : 4 + 2 * i = 2 * i + 1 + 1 + 1 + 1 := by ring
  have e5 : 4 + 2 * i + 1 = 2 * i + 1 + 1 + 1 + 1 + 1 := by ring
  have e2 : 2 + 2 * i = 2 * i + 1 + 1 := by ring
  have e3 : 2 + 2 * i + 1 = 2 * i + 1 + 1 + 1 := by ring
  refine ⟨by simp [helm_install_cmd], ?_, ?_, ?_,
    by simp [helm_list_cmd], ?_, ?_, ?_⟩
  · simp [helm_install_cmd, build_flags_length]; omega
  · simp only [helm_install_cmd, List.cons_append, List.nil_append, e4,
      List.getElem?_cons_succ]
    simpa using hflag
  · simp only [helm_install_cmd, List.cons_append, List.nil_append, e5,
      List.getElem?_cons_succ]
    simpa using hval
  · simp [helm_list_cmd, build_flags_length]; omega
  · simp only [helm_list_cmd, List.cons_append, List.nil_append, e2,
      List.getElem?_cons_succ]
    simpa using hflag
  · simp only [helm_list_cmd, List.cons_append, List.nil_append, e3,
      List.getElem?_cons_succ]
    simpa using hval

/-- Keyword arguments of the C9 witness, in the order `_run_helm_install`
passes them (line 304-308). -/
def installKwargs : List (String × String) :=
  [("version", "1.0.0"), ("namespace", "ns1"), ("values", "/tmp/values.yaml")]

/-- Witness for C9 at the concrete keyword arguments, second pair. -/
theorem helm_command_vector_order_witness :
    installKwargs[1]? = some ("namespace", "ns1") ∧
    (helm_install_cmd "install" "demo" "oci://chart" installKwargs =
      "helm" :: "install" :: "demo" :: "oci://chart" ::
        build_flags installKwargs ∧
     (helm_install_cmd "install" "demo" "oci://chart" installKwargs).length =
       4 + 2 * installKwargs.length ∧
     (helm_install_cmd "install" "demo" "oci://chart" installKwargs)[4 + 2 * 1]? =
       some ("--" ++ "namespace") ∧
     (helm_install_cmd "install" "demo" "oci://chart" installKwargs)[4 + 2 * 1 + 1]? =
       some "ns1" ∧
     helm_list_cmd installKwargs = "helm" :: "list" :: build_flags installKwargs ∧
     (helm_list_cmd installKwargs).length = 2 + 2 * installKwargs.length ∧
     (helm_list_cmd installKwargs)[2 + 2 * 1]? = some ("--" ++ "namespace") ∧
     (helm_list_cmd installKwargs)[2 + 2 * 1 + 1]? = some "ns1") :=
  ⟨by decide,
    helm_command_vector_order "install" "demo" "oci://chart" installKwargs 1
      "namespace" "ns1" (by decide)⟩

/-- Gate walk with every unaccepted agreement answered "yes": the run
succeeds, and both the confirmation list and the recording list are exactly
the unaccepted agreement ids in order. -/
lemma gateLoop_all_yes (acceptedIds : List String) (answer : String → Bool) :
    ∀ summaries : List AgreementSummary,
      (∀ a ∈ summaries, a.id ∉ acceptedIds → answer a.id = true) →
      gateLoop acceptedIds answer summaries =
        (.ok (), ⟨unaccepted_ids acceptedIds summaries,
                  unaccepted_ids acceptedIds summaries⟩) := by
  intro summaries
  induction summaries with
  | nil => intro _; simp [gateLoop, unaccepted_ids]
  | cons a rest ih =>
    intro hall
    have hr := ih fun b hb => hall b (List.mem_cons_of_mem a hb)
    by_cases hacc : a.id ∈ acceptedIds
    · simp [gateLoop, hacc, unaccepted_ids, hr]
    · have hy : answer a.id = true :=
        hall a (List.mem_cons_self a rest) hacc
      simp [gateLoop, hacc, hy, unaccepted_ids, hr]

/-- Gate walk that reaches an unaccepted agreement answered "no" after a
prefix whose members were each either already accepted or answered "yes":
the run raises the bare `Exception`, the confirmations are the prefix's
unaccepted ids followed by the rejected id, and the recordings are the
prefix's unaccepted ids only — nothing for the rejected agreement and
nothing for the agreements after it. -/
lemma gateLoop_reject (acceptedIds : List String) (answer : String → Bool)
    (a : AgreementSummary) (post : List AgreementSummary) :
    ∀ pre : List AgreementSummary,
      (∀ b ∈ pre, b.id ∈ acceptedIds ∨ answer b.id = true) →
      a.id ∉ acceptedIds → answer a.id = false →
      gateLoop acceptedIds answer (pre ++ a :: post) =
        (.error .Exception,
         ⟨unaccepted_ids acceptedIds pre ++ [a.id],
          unaccepted_ids acceptedIds pre⟩) := by
  intro pre
  induction pre with
  | nil =>
    intro _ hacc hno
    simp [gateLoop, hacc, hno, unaccepted_ids]
  | cons b pre ih =>
    intro hall hacc hno
    have hrest := ih (fun c hc => hall c (List.mem_cons_of_mem b hc)) hacc hno
    by_cases hbacc : b.id ∈ acceptedIds
    · simp [gateLoop, hbacc, unaccepted_ids, hrest]
    · have hb : answer b.id = true := by
        rcases hall b (List.mem_cons_self b pre) with hm | hy
        · exact absurd hm hbacc
        · exact hy
      simp [gateLoop, hbacc, hb, unaccepted_ids, hrest]

/-- C7: the agreement gate's interaction discipline.  With every required
agreement already accepted there are no confirmations and no recordings and
the gate succeeds; with every unaccepted agreement confirmed "yes" there is
exactly one confirmation and one recording per unaccepted agreement, in
order; and when an unaccepted agreement is answered "no" after a prefix that
passed, the gate stops at once: the rejected agreement is confirmed but not
recorded, and the agreements after it see no interaction and no recording. -/
theorem agreement_gate_interactions (accepted : List AcceptedAgreementSummary)
    (answer : String → Bool) (summaries pre post : List AgreementSummary)
    (a : AgreementSummary) :
    ((∀ b ∈ summaries, b.id ∈ accepted_ids accepted) →
      check_prerequisites accepted answer summaries = (.ok (), ⟨[], []⟩)) ∧
    ((∀ b ∈ summaries, b.id ∉ accepted_ids accepted → answer b.id = true) →
      check_prerequisites accepted answer summaries =
        (.ok (), ⟨unaccepted_ids (accepted_ids accepted) summaries,
                  unaccepted_ids (accepted_ids accepted) summaries⟩)) ∧
    ((∀ b ∈ pre, b.id ∈ accepted_ids accepted ∨ answer b.id = true) →
      a.id ∉ accepted_ids accepted → answer a.id = false →
      check_prerequisites accepted answer (pre ++ a :: post) =
        (.error .Exception,
         ⟨unaccepted_ids (accepted_ids accepted) pre ++ [a.id],
          unaccepted_ids (accepted_ids accepted) pre⟩)) := by
  refine ⟨?_, ?_, ?_⟩
  · intro hall
    have h0 : ∀ b ∈ summaries, b.id ∉ accepted_ids accepted →
        answer b.id = true := fun b hb hf => absurd (hall b hb) hf
    have h1 := gateLoop_all_yes (accepted_ids accepted) answer summaries h0
    have h2 : unaccepted_ids (accepted_ids accepted) summaries = [] := by
      simp only [unaccepted_ids, List.map_eq_nil_iff, List.filter_eq_nil_iff]
      intro b hb
      simp [hall b hb]
    rw [check_prerequisites, h1, h2]
  · intro hall
    exact gateLoop_all_yes (accepted_ids accepted) answer summaries hall
  · intro hall hacc hno
    exact gateLoop_reject (accepted_ids accepted) answer a post pre hall hacc hno

/-- Accepted-agreement list used by the gate witnesses. -/
def witnessAccepted : List AcceptedAgreementSummary := [⟨"agr1"⟩]

/-- Interactive answers used by the gate witnesses: "yes" only for `agr2`. -/
def witnessAnswer : String → Bool := fun s => s == "agr2"

/-- Witness for C7: all three branches of the gate theorem applied at
concrete agreement lists — everything accepted, everything confirmed, and a
rejection after one skip and one confirmation. -/
theorem agreement_gate_interactions_witness :
    check_prerequisites witnessAccepted witnessAnswer [⟨"agr1", "A"⟩] =
      (.ok (), ⟨[], []⟩) ∧
    check_prerequisites witnessAccepted witnessAnswer
        [⟨"agr1", "A"⟩, ⟨"agr2", "B"⟩] =
      (.ok (), ⟨["agr2"], ["agr2"]⟩) ∧
    check_prerequisites witnessAccepted witnessAnswer
        ([⟨"agr1", "A"⟩, ⟨"agr2", "B"⟩] ++ ⟨"agr3", "C"⟩ :: [⟨"agr4", "D"⟩]) =
      (.error .Exception, ⟨["agr2", "agr3"], ["agr2"]⟩) := by
  refine ⟨?_, ?_, ?_⟩
  · exact (agreement_gate_interactions witnessAccepted witnessAnswer
      [⟨"agr1", "A"⟩] [] [] ⟨"", ""⟩).1 (by decide)
  · have h := (agreement_gate_interactions witnessAccepted witnessAnswer
      [⟨"agr1", "A"⟩, ⟨"agr2", "B"⟩] [] [] ⟨"", ""⟩).2.1 (by decide)
    rw [h]
    decide
  · have h := (agreement_gate_interactions witnessAccepted witnessAnswer []
      [⟨"agr1", "A"⟩, ⟨"agr2", "B"⟩] [⟨"agr4", "D"⟩] ⟨"agr3", "C"⟩).2.2
      (by decide) (by decide) (by decide)
    rw [h]
    decide

/-- C8 (counterexample): declining the one required agreement makes the gate
raise the generic base `Exception` (the source's bare `raise Exception` at
line 243), not a distinguished `AgreementRejected` error — the second
conjunct evaluates the comparison with `AgreementRejected` to `false`. -/
theorem gate_decline_error_counterexample :
    (check_prerequisites [] (fun _ => false) [⟨"agr1", "A"⟩]).1 =
      .error .Exception ∧
    decide ((check_prerequisites [] (fun _ => false) [⟨"agr1", "A"⟩]).1 =
      .error .AgreementRejected) = false := by
  decide

/-- C8 (amended): whenever a required agreement that is not already accepted
is declined at the interactive confirmation, the gate fails by raising the
generic, untyped base `Exception`, with no retry: the declined agreement is
confirmed exactly once, receives no recording call, and the walk stops
there. -/
theorem gate_decline_raises_bare_exception
    (accepted : List AcceptedAgreementSummary) (answer : String → Bool)
    (pre post : List AgreementSummary) (a : AgreementSummary)
    (hall : ∀ b ∈ pre, b.id ∈ accepted_ids accepted ∨ answer b.id = true)
    (hacc : a.id ∉ accepted_ids accepted) (hno : answer a.id = false) :
    check_prerequisites accepted answer (pre ++ a :: post) =
      (.error .Exception,
       ⟨unaccepted_ids (accepted_ids accepted) pre ++ [a.id],
        unaccepted_ids (accepted_ids accepted) pre⟩) :=
  gateLoop_reject (accepted_ids accepted) answer a post pre hall hacc hno

/-- Witness for the amended C8: one already-accepted agreement skipped, one
declined second. -/
theorem gate_decline_raises_bare_exception_witness :
    check_prerequisites witnessAccepted (fun _ => false)
        ([⟨"agr1", "A"⟩] ++ ⟨"agr2", "B"⟩ :: []) =
      (.error .Exception, ⟨["agr2"], []⟩) := by
  have h := gate_decline_raises_bare_exception witnessAccepted
    (fun _ => false) [⟨"agr1", "A"⟩] [] ⟨"agr2", "B"⟩ (by decide) (by decide)
    (by decide)
  rw [h]
  decide

/-- Deployment-run environment with Helm listing details, a clean install
and a ready pod. -/
def helmRunEnv : RunEnv := ⟨true, .ran 0, .ok 0⟩

/-- C1 (code bug evidence): no deployment run ever invokes the agreement
gate — the `check_prerequisites` call at line 288 is commented out — so the
install proceeds with the agreements unresolved: the trace of every run
contains zero gate invocations, and the run with Helm details executes the
install and succeeds even though a declined agreement (see the gate
theorems) would have to abort it. -/
theorem run_installs_without_agreement_gate (env : RunEnv) :
    (run_with_python env).2.count .checkPrereq = 0 ∧
    (run_with_python helmRunEnv).2 =
      [.saveTempFile, .helmInstall, .deleteTempFile, .waitForPod] ∧
    (run_with_python helmRunEnv).1 = .ok (some 0) := by
  refine ⟨?_, by decide, by decide⟩
  rcases env with ⟨hl, inst, pw⟩
  cases hl
  · simp [run_with_python]
  · cases inst with
    | raised e => simp [run_with_python]
    | ran rc =>
      by_cases hrc : rc = 0
      · cases pw with
        | error e => simp [run_with_python, hrc]
        | ok r => simp [run_with_python, hrc]
      · simp [run_with_python, hrc]

/-- C4 (counterexample): when the install step raises (here the `TypeError`
from the existence probe after a failed `helm list`), `_run_with_python`
propagates the exception with the override-values file still on disk: the
exit path's trace holds the save step but no delete step. -/
theorem temp_file_leak_counterexample :
    run_with_python ⟨true, .raised .TypeError, .ok 0⟩ =
      (.error .TypeError, [.saveTempFile]) ∧
    decide (Event.deleteTempFile ∈
      (run_with_python ⟨true, .raised .TypeError, .ok 0⟩).2) = false := by
  decide

/-- C4 (amended): the override-values artifact is removed exactly once on
both normal-return exit paths — install exit code zero (with the poller
running afterwards) and non-zero — but on an exception path raised inside
the install step the run exits with no removal at all, because the source
has no `try`/`finally` around lines 298-311. -/
theorem temp_file_removed_only_on_normal_return (env : RunEnv) (rc : Int)
    (e : PyError) :
    (env.isHelmListing = true → env.installStep = .ran rc →
      (run_with_python env).2.count .deleteTempFile = 1) ∧
    (env.installStep = .raised e →
      (run_with_python env).2.count .deleteTempFile = 0) := by
  rcases env with ⟨hl, inst, pw⟩
  constructor
  · intro hhelm hinst
    simp only [] at hhelm hinst
    subst hhelm hinst
    by_cases hrc : rc = 0
    · cases pw with
      | error e2 => simp [run_with_python, hrc]
      | ok r => simp [run_with_python, hrc]
    · simp [run_with_python, hrc]
  · intro hinst
    simp only [] at hinst
    subst hinst
    cases hl
    · simp [run_with_python]
    · simp [run_with_python]

/-- Witness for C4 at the two concrete normal-return runs. -/
theorem temp_file_removed_witness :
    ((run_with_python ⟨true, .ran 0, .ok 0⟩).2.count .deleteTempFile = 1) ∧
    ((run_with_python ⟨true, .ran 2, .ok 0⟩).2.count .deleteTempFile = 1) :=
  ⟨(temp_file_removed_only_on_normal_return ⟨true, .ran 0, .ok 0⟩ 0
      .TypeError).1 rfl rfl,
   (temp_file_removed_only_on_normal_return ⟨true, .ran 2, .ok 0⟩ 2
      .TypeError).1 rfl rfl⟩

/-- C5: a non-zero install/upgrade exit code short-circuits the run: the
result is the failure sentinel `-1`, the temp file is still deleted, and
the readiness poller is never invoked — the trace holds zero `waitForPod`
steps. -/
theorem install_failure_short_circuits (env : RunEnv) (rc : Int)
    (hl : env.isHelmListing = true) (hin : env.installStep = .ran rc)
    (hrc : rc ≠ 0) :
    run_with_python env =
      (.ok (some (-1)), [.saveTempFile, .helmInstall, .deleteTempFile]) ∧
    (run_with_python env).2.count .waitForPod = 0 := by
  rcases env with ⟨hl2, inst, pw⟩
  simp only [] at hl hin
  subst hl hin
  constructor
  · simp [run_with_python, hrc]
  · simp [run_with_python, hrc]

/-- Witness for C5 at install exit code 1. -/
theorem install_failure_short_circuits_witness :
    run_with_python ⟨true, .ran 1, .ok 0⟩ =
      (.ok (some (-1)), [.saveTempFile, .helmInstall, .deleteTempFile]) ∧
    (run_with_python ⟨true, .ran 1, .ok 0⟩).2.count .waitForPod = 0 :=
  install_failure_short_circuits ⟨true, .ran 1, .ok 0⟩ 1 rfl rfl (by decide)

/-- C10: with a supported runtime type, `run` returns normally exactly when
the selected runtime function returns `0`; any other returned value raises
`RuntimeError` — in particular the `None` that `_run_with_python` returns
for non-Helm listing details, so a non-Helm listing is a fatal failure, not
a silent no-op. -/
theorem run_raises_unless_exit_zero (rf : Except PyError (Option Int))
    (env : RunEnv) :
    (runMethod true rf = .ok () ↔ rf = .ok (some 0)) ∧
    (env.isHelmListing = false →
      runMethod true (run_with_python env).1 = .error .RuntimeError) := by
  constructor
  · constructor
    · intro h
      cases rf with
      | error e => simp [runMethod] at h
      | ok ec =>
        by_cases hec : ec = some 0
        · rw [hec]
        · simp [runMethod, hec] at h
    · intro h
      rw [h]
      simp [runMethod]
  · intro h
    rcases env with ⟨hl, inst, pw⟩
    simp only [] at h
    subst h
    simp [run_with_python, runMethod]

/-- Witness for C10 at exit code 0 and at a non-Helm listing run. -/
theorem run_raises_unless_exit_zero_witness :
    (runMethod true (.ok (some 0)) = .ok () ↔
      (Except.ok (some 0) : Except PyError (Option Int)) = .ok (some 0)) ∧
    (RunEnv.isHelmListing ⟨false, .ran 0, .ok 0⟩ = false →
      runMethod true (run_with_python ⟨false, .ran 0, .ok 0⟩).1 =
        .error .RuntimeError) :=
  run_raises_unless_exit_zero (.ok (some 0)) ⟨false, .ran 0, .ok 0⟩
